import Mathlib

/-!
Verification of the `DatabaseReplicator` ETL pipeline.

A shallow embedding of `src/scripts/etl_pipeline.py` (class `DatabaseReplicator`).

Modelling conventions:
* Rows of the five SQLite tables are modelled by a single record `Row` carrying the
  key columns the pipeline ever inspects (primary key and the three dimension keys
  of `fact_sales`, plus `total_amount`); descriptive attribute columns are irrelevant
  to every operation of the pipeline and are omitted.
* The target database state `TargetDB` carries the set of provisioned schema objects,
  the committed contents of each table (as the function `tables`), and the committed
  `etl_control` rows in insertion order (the `AUTOINCREMENT` id is the list position).
* Wall-clock readings (`datetime.now`, `time.time` differences) are supplied by the
  environment as natural numbers.
* External failure modes (connection refusal, unreadable source table, failing bulk
  insert) are injected through the `Env` record; the functions below describe what the
  Python code does in each case.
* `df.to_sql(..., if_exists='append')` on a raw `sqlite3` connection runs inside
  pandas' `run_transaction`: on success it commits the connection (committing the
  preceding uncommitted `DELETE` as well), on failure it calls `con.rollback()`,
  which undoes every uncommitted statement — in particular the `DELETE` issued by
  `load_table_data` just before. The embedding keeps the committed state explicit
  and applies exactly this semantics.
-/

/-- Status column of `etl_control` rows and of in-memory execution-log entries. -/
inductive Status where
  | SUCCESS
  | ERROR
deriving DecidableEq, Repr, BEq

/-- A table row, restricted to the columns the pipeline reads: the primary key,
the three dimension keys carried by `fact_sales` rows, and `total_amount`.
For dimension tables only `key` is meaningful. -/
structure Row where
  key : Int
  dateKey : Int
  productKey : Int
  segmentKey : Int
  amount : Int
deriving DecidableEq, Repr

/-- One row of the `etl_control` table
(`table_name, last_update, records_processed, execution_time_seconds, status, error_message`). -/
structure ControlRecord where
  table_name : String
  last_update : Nat
  records_processed : Nat
  execution_time_seconds : Nat
  status : Status
  error_message : Option String
deriving DecidableEq, Repr

/-- One entry of `self.execution_log`
(dict with keys `table`, `records`, `time`, `status`, optional `error`). -/
structure LogEntry where
  table : String
  records : Nat
  time : Nat
  status : Status
  error : Option String
deriving DecidableEq, Repr

/-- Committed state of the target SQLite database: provisioned schema objects
(tables and indexes), committed rows of every table, and the `etl_control` rows. -/
structure TargetDB where
  schemaObjs : List String
  tables : String → List Row
  control : List ControlRecord

/-- Replicator state threaded through a run: the target database plus
`self.execution_log`. -/
structure RepState where
  db : TargetDB
  execution_log : List LogEntry

/-- Environment of one run: which external operations succeed, the contents of the
source database, and clock readings. -/
structure Env where
  source_ok : Bool
  target_ok : Bool
  schema_ok : Bool
  source_tables : String → List Row
  extract_ok : String → Bool
  insert_ok : String → Bool
  elapsed : String → Nat
  now : Nat

/-- State of one database connection handle. -/
inductive ConnState where
  | opened
  | closed
deriving DecidableEq, Repr

/-- The `finally` block runs `conn.close()` guarded by `if conn:`; a handle that
never opened (`None`) is left untouched. -/
def close_conn : Option ConnState → Option ConnState
  | none => none
  | some _ => some ConnState.closed

/-- The fixed replication order of `run_full_replication`
(`tables_to_replicate` in the Python source): dimensions before the fact table. -/
def tables_to_replicate : List String :=
  ["dim_date", "dim_customer_segment", "dim_product", "fact_sales"]

/-- The schema objects created by `create_target_schema`: four data tables, the
control table, and the three indexes on the fact table's dimension keys. -/
def schema_objects : List String :=
  ["dim_date", "dim_customer_segment", "dim_product", "fact_sales", "etl_control",
   "idx_sales_date", "idx_sales_product", "idx_sales_segment"]

/-- Model of `CREATE TABLE IF NOT EXISTS` / `CREATE INDEX IF NOT EXISTS`: add the object
only when it is not already present. -/
def create_if_not_exists (objs : List String) (name : String) : List String :=
  if name ∈ objs then objs else objs ++ [name]

/-- Model of `DatabaseReplicator.create_target_schema` (success path): issue
`CREATE ... IF NOT EXISTS` for every object of `schema_objects`, then commit.
Data and control rows are untouched. -/
def create_target_schema (db : TargetDB) : TargetDB :=
  { db with schemaObjs := schema_objects.foldl create_if_not_exists db.schemaObjs }

/-- Model of `DatabaseReplicator.extract_table_data`: read `SELECT * FROM bi_schema.<t>` into a
DataFrame; on any read failure the `except` branch returns `None`. -/
def extract_table_data (env : Env) (t : String) : Option (List Row) :=
  if env.extract_ok t then some (env.source_tables t) else none

/-- Error text recorded by `load_table_data`'s `except` branch (`str(e)` of the
failed bulk insert; the concrete message text is irrelevant to every claim). -/
def insertErrMsg : String := "to_sql bulk insert failed"

/-- Model of `DatabaseReplicator.load_table_data`. The Python code, on the committed state
`st.db`:
1. `DELETE FROM t` — an uncommitted change on the target connection;
2. `df.to_sql(t, ..., if_exists='append')` — on success pandas commits the
   connection (delete plus inserted rows), on failure pandas rolls the connection
   back, undoing the uncommitted delete;
3. success path: insert a `SUCCESS` control row, commit, append a log entry,
   return `True`;
4. failure path (`except`): insert an `ERROR` control row with
   `records_processed = 0` and `execution_time_seconds = 0`, commit, append the
   matching log entry, return `False`.
`insertOk` injects whether step 2 succeeds; `now` and `e` are the clock readings. -/
def load_table_data (st : RepState) (df : List Row) (t : String)
    (insertOk : Bool) (now e : Nat) : Bool × RepState :=
  let committed := st.db
  let pending := { committed with tables := fun u => if u = t then [] else committed.tables u }
  if insertOk then
    let afterInsert :=
      { pending with tables := fun u => if u = t then pending.tables u ++ df else pending.tables u }
    let afterControl :=
      { afterInsert with control := afterInsert.control ++
          [⟨t, now, df.length, e, Status.SUCCESS, none⟩] }
    (true, ⟨afterControl, st.execution_log ++ [⟨t, df.length, e, Status.SUCCESS, none⟩]⟩)
  else
    let rolledBack := committed
    let afterControl :=
      { rolledBack with control := rolledBack.control ++
          [⟨t, now, 0, 0, Status.ERROR, some insertErrMsg⟩] }
    (false, ⟨afterControl, st.execution_log ++ [⟨t, 0, 0, Status.ERROR, some insertErrMsg⟩]⟩)

/-- Model of `DatabaseReplicator.replicate_table`: extract, and if extraction returned
`None` immediately return `False` (note: no control record and no log entry are
written on this path); otherwise load. -/
def replicate_table (env : Env) (st : RepState) (t : String) : Bool × RepState :=
  match extract_table_data env t with
  | none => (false, st)
  | some df => load_table_data st df t (env.insert_ok t) env.now (env.elapsed t)

/-- Model of `DatabaseReplicator.validate_replication`: per table, compare
`COUNT(*)` between source and target; then run the
`SUM(total_amount), COUNT(*), AVG(total_amount)` metrics query on `fact_sales`
and log it. When `fact_sales` is empty, `SUM` and `AVG` return `NULL` and the
`f"...{metrics[0]:,.2f}"` logging line raises `TypeError`, so the `except`
branch returns `False`. Otherwise the result is `all_match`. -/
def validate_replication (env : Env) (db : TargetDB) : Bool :=
  if (db.tables "fact_sales").length = 0 then
    false
  else
    tables_to_replicate.all fun t =>
      (env.source_tables t).length == (db.tables t).length

/-- The run report assembled by `DatabaseReplicator.generate_report` and written
to `reports/etl_report_<timestamp>.json`. -/
structure Report where
  timestamp : Nat
  total_tables : Nat
  successful_tables : Nat
  failed_tables : Nat
  total_records_processed : Nat
  total_execution_time : Nat
  tables_detail : List LogEntry
deriving DecidableEq, Repr

/-- Model of `DatabaseReplicator.generate_report`: aggregate `self.execution_log`.
Records are summed over `SUCCESS` entries only; time is summed over all entries. -/
def generate_report (now : Nat) (log : List LogEntry) : Report :=
  { timestamp := now
    total_tables := log.length
    successful_tables := (log.filter fun l => l.status == Status.SUCCESS).length
    failed_tables := (log.filter fun l => l.status == Status.ERROR).length
    total_records_processed :=
      ((log.filter fun l => l.status == Status.SUCCESS).map fun l => l.records).sum
    total_execution_time := (log.map fun l => l.time).sum
    tables_detail := log }

/-- One iteration of the replication loop:
`if not self.replicate_table(table): success = False` —
the table is always attempted, the flag is conjoined with the outcome. -/
def replStep (env : Env) (acc : Bool × RepState) (t : String) : Bool × RepState :=
  let p := replicate_table env acc.2 t
  (acc.1 && p.1, p.2)

/-- Result of `run_full_replication`: the returned flag, both connection handles
after the `finally` block, the final replicator state, the persisted report
(`none` when the run returned before report generation), and whether
`validate_replication` was invoked. -/
structure RunResult where
  success : Bool
  source_conn : Option ConnState
  target_conn : Option ConnState
  final : RepState
  report : Option Report
  validation_ran : Bool

/-- Model of `DatabaseReplicator.run_full_replication` on a target database whose committed
state is `init`:
1. `connect_source` / `connect_target`: failure returns `False` at once
   (the `finally` block still closes whatever opened);
2. `create_target_schema`: failure returns `False`
   (partial object creation under a schema fault is not modelled; no claim
   inspects the schema after a schema fault);
3. the replication loop over `tables_to_replicate`, always attempting every
   table and conjoining the success flag;
4. `validate_replication`, only when every table replicated successfully;
5. `generate_report` and the JSON dump, unconditionally on this path;
6. return the flag; the `finally` block closes both connections. -/
def run_full_replication (env : Env) (init : TargetDB) : RunResult :=
  if env.source_ok then
    if env.target_ok then
      if env.schema_ok then
        let st0 : RepState := ⟨create_target_schema init, []⟩
        let res := tables_to_replicate.foldl (replStep env) (true, st0)
        let success := if res.1 then validate_replication env res.2.db else res.1
        let report := generate_report env.now res.2.execution_log
        ⟨success, close_conn (some ConnState.opened), close_conn (some ConnState.opened),
          res.2, some report, res.1⟩
      else
        ⟨false, close_conn (some ConnState.opened), close_conn (some ConnState.opened),
          ⟨init, []⟩, none, false⟩
    else
      ⟨false, close_conn (some ConnState.opened), close_conn none, ⟨init, []⟩, none, false⟩
  else
    ⟨false, close_conn none, close_conn none, ⟨init, []⟩, none, false⟩

/-- Outcome of one `replicate_table` attempt: extraction and bulk insert both succeed. -/
def tableOk (env : Env) (t : String) : Bool :=
  env.extract_ok t && env.insert_ok t

/-- The log entries one `replicate_table` attempt appends to `self.execution_log`. -/
def attemptLog (env : Env) (t : String) : List LogEntry :=
  if env.extract_ok t then
    if env.insert_ok t then
      [⟨t, (env.source_tables t).length, env.elapsed t, Status.SUCCESS, none⟩]
    else
      [⟨t, 0, 0, Status.ERROR, some insertErrMsg⟩]
  else []

/-- The control records one `replicate_table` attempt appends to `etl_control`. -/
def attemptControl (env : Env) (t : String) : List ControlRecord :=
  if env.extract_ok t then
    if env.insert_ok t then
      [⟨t, env.now, (env.source_tables t).length, env.elapsed t, Status.SUCCESS, none⟩]
    else
      [⟨t, env.now, 0, 0, Status.ERROR, some insertErrMsg⟩]
  else []

/-- Concatenated log entries of a sequence of attempts. -/
def flatLogs (env : Env) : List String → List LogEntry
  | [] => []
  | t :: ts => attemptLog env t ++ flatLogs env ts

/-- Concatenated control records of a sequence of attempts. -/
def flatControls (env : Env) : List String → List ControlRecord
  | [] => []
  | t :: ts => attemptControl env t ++ flatControls env ts

/-- Modelled from the spec: the Replication Validator is described as counting
`fact_sales` rows whose `date_id` resolves to no `dim_date` row
(left-join-and-filter-null). No such query exists in
`DatabaseReplicator.validate_replication`; the only left-join orphan queries in
the repository are in the seeding utility `load_csv_data.py`, run against the
source and merely logged. This definition expresses the described count over
the target state, for comparison with what the code returns. -/
def sales_without_date (db : TargetDB) : Nat :=
  ((db.tables "fact_sales").filter fun r =>
    !((db.tables "dim_date").any fun p => p.key == r.dateKey)).length

/-- Modelled from the spec: the orphan count for `product_id` against
`dim_product`, as described for the Replication Validator (absent from
`validate_replication`; see `sales_without_date`). -/
def sales_without_product (db : TargetDB) : Nat :=
  ((db.tables "fact_sales").filter fun r =>
    !((db.tables "dim_product").any fun p => p.key == r.productKey)).length

/-- Modelled from the spec: the orphan count for `segment_id` against
`dim_customer_segment`, as described for the Replication Validator (absent from
`validate_replication`; see `sales_without_date`). -/
def sales_without_segment (db : TargetDB) : Nat :=
  ((db.tables "fact_sales").filter fun r =>
    !((db.tables "dim_customer_segment").any fun p => p.key == r.segmentKey)).length

/-- A dimension row with the given key (descriptive columns are irrelevant). -/
def dimRow (k : Int) : Row := ⟨k, 0, 0, 0, 0⟩

/-- A fact row with the given sale key and dimension keys. -/
def factRow (k d p s : Int) : Row := ⟨k, d, p, s, 10⟩

/-- A small source database: one row per table, with consistent keys. -/
def srcSmall : String → List Row := fun t =>
  if t = "dim_date" then [dimRow 1]
  else if t = "dim_customer_segment" then [dimRow 1]
  else if t = "dim_product" then [dimRow 1]
  else if t = "fact_sales" then [factRow 1 1 1 1]
  else []

/-- Environment in which every external operation succeeds. -/
def envAllOk : Env :=
  ⟨true, true, true, srcSmall, fun _ => true, fun _ => true, fun _ => 1, 5⟩

/-- Environment in which reading source table `dim_date` fails. -/
def envExtractFail : Env := { envAllOk with extract_ok := fun t => !(t == "dim_date") }

/-- Environment in which the bulk insert into `dim_product` fails. -/
def envLoadFail : Env := { envAllOk with insert_ok := fun t => !(t == "dim_product") }

/-- Environment in which the source connection cannot be opened. -/
def envNoSource : Env := { envAllOk with source_ok := false }

/-- Environment in which the target connection cannot be opened. -/
def envNoTarget : Env := { envAllOk with target_ok := false }

/-- An empty, unprovisioned target database. -/
def emptyDB : TargetDB := ⟨[], fun _ => [], []⟩

/-- A fully provisioned, otherwise empty target database. -/
def dbProvisioned : TargetDB := ⟨schema_objects, fun _ => [], []⟩

/-- Target contents with one orphaned fact row: its `product_id` 2 has no
`dim_product` row. Row counts per table equal those of `srcSmall`. -/
def tablesOrphan : String → List Row := fun t =>
  if t = "dim_date" then [dimRow 1]
  else if t = "dim_customer_segment" then [dimRow 1]
  else if t = "dim_product" then [dimRow 1]
  else if t = "fact_sales" then [factRow 1 1 2 1]
  else []

/-- Provisioned target holding `tablesOrphan` (one orphaned fact row). -/
def dbOrphan : TargetDB := ⟨schema_objects, tablesOrphan, []⟩

/-- Provisioned target holding `srcSmall` (referentially intact). -/
def dbNoOrphan : TargetDB := ⟨schema_objects, srcSmall, []⟩

/-- The boolean outcome of one attempt is extraction success and insert success. -/
theorem replicate_table_fst (env : Env) (st : RepState) (t : String) :
    (replicate_table env st t).1 = tableOk env t := by
  unfold replicate_table extract_table_data tableOk load_table_data
  cases hex : env.extract_ok t <;> cases hins : env.insert_ok t <;> simp

/-- One attempt appends exactly `attemptLog env t` to the execution log. -/
theorem replicate_table_log (env : Env) (st : RepState) (t : String) :
    (replicate_table env st t).2.execution_log = st.execution_log ++ attemptLog env t := by
  unfold replicate_table extract_table_data attemptLog load_table_data
  cases hex : env.extract_ok t <;> cases hins : env.insert_ok t <;> simp

/-- One attempt appends exactly `attemptControl env t` to the control table. -/
theorem replicate_table_control (env : Env) (st : RepState) (t : String) :
    (replicate_table env st t).2.db.control = st.db.control ++ attemptControl env t := by
  unfold replicate_table extract_table_data attemptControl load_table_data
  cases hex : env.extract_ok t <;> cases hins : env.insert_ok t <;> simp

/-- No attempt touches the provisioned schema objects. -/
theorem replicate_table_schema (env : Env) (st : RepState) (t : String) :
    (replicate_table env st t).2.db.schemaObjs = st.db.schemaObjs := by
  unfold replicate_table extract_table_data load_table_data
  cases hex : env.extract_ok t <;> cases hins : env.insert_ok t <;> simp

/-- The replication loop's final flag is the conjunction of the initial flag
with the outcome of every table attempt. -/
theorem foldl_replStep_fst (env : Env) (ts : List String) :
    ∀ (b : Bool) (st : RepState),
      (ts.foldl (replStep env) (b, st)).1 = (b && ts.all (tableOk env)) := by
  induction ts with
  | nil => intro b st; simp
  | cons t ts ih =>
    intro b st
    rw [List.foldl_cons]
    show (ts.foldl (replStep env) (replStep env (b, st) t)).1 = _
    rw [show replStep env (b, st) t =
        ((b && (replicate_table env st t).1), (replicate_table env st t).2) from rfl]
    rw [ih]
    rw [replicate_table_fst]
    simp [Bool.and_assoc]

/-- The replication loop appends exactly the concatenated attempt logs, in list
order, regardless of intervening failures. -/
theorem foldl_replStep_log (env : Env) (ts : List String) :
    ∀ (b : Bool) (st : RepState),
      (ts.foldl (replStep env) (b, st)).2.execution_log =
        st.execution_log ++ flatLogs env ts := by
  induction ts with
  | nil => intro b st; simp [flatLogs]
  | cons t ts ih =>
    intro b st
    rw [List.foldl_cons]
    show (ts.foldl (replStep env)
        ((b && (replicate_table env st t).1), (replicate_table env st t).2)).2.execution_log = _
    rw [ih, replicate_table_log, flatLogs, List.append_assoc]

/-- The replication loop appends exactly the concatenated attempt control
records, in list order. -/
theorem foldl_replStep_control (env : Env) (ts : List String) :
    ∀ (b : Bool) (st : RepState),
      (ts.foldl (replStep env) (b, st)).2.db.control =
        st.db.control ++ flatControls env ts := by
  induction ts with
  | nil => intro b st; simp [flatControls]
  | cons t ts ih =>
    intro b st
    rw [List.foldl_cons]
    show (ts.foldl (replStep env)
        ((b && (replicate_table env st t).1), (replicate_table env st t).2)).2.db.control = _
    rw [ih, replicate_table_control, flatControls, List.append_assoc]

/-- The replication loop never touches the provisioned schema objects. -/
theorem foldl_replStep_schema (env : Env) (ts : List String) :
    ∀ (b : Bool) (st : RepState),
      (ts.foldl (replStep env) (b, st)).2.db.schemaObjs = st.db.schemaObjs := by
  induction ts with
  | nil => intro b st; rfl
  | cons t ts ih =>
    intro b st
    rw [List.foldl_cons]
    show (ts.foldl (replStep env)
        ((b && (replicate_table env st t).1), (replicate_table env st t).2)).2.db.schemaObjs = _
    rw [ih, replicate_table_schema]

/-- Creating with `IF NOT EXISTS` preserves every object already present. -/
theorem mem_create_if_not_exists {a : String} {objs : List String} (n : String)
    (h : a ∈ objs) : a ∈ create_if_not_exists objs n := by
  unfold create_if_not_exists
  split <;> simp [h]

/-- After creating with `IF NOT EXISTS`, the object is present. -/
theorem self_mem_create_if_not_exists (objs : List String) (n : String) :
    n ∈ create_if_not_exists objs n := by
  unfold create_if_not_exists
  split <;> simp_all

/-- Folding the creations preserves every object already present. -/
theorem mem_foldl_create_of_mem {a : String} (l : List String) :
    ∀ s : List String, a ∈ s → a ∈ l.foldl create_if_not_exists s := by
  induction l with
  | nil => intro s h; simpa using h
  | cons n l ih =>
    intro s h
    rw [List.foldl_cons]
    exact ih _ (mem_create_if_not_exists n h)

/-- Folding the creations makes every listed object present. -/
theorem mem_foldl_create_of_mem_list {a : String} (l : List String) :
    ∀ s : List String, a ∈ l → a ∈ l.foldl create_if_not_exists s := by
  induction l with
  | nil => intro s h; simp at h
  | cons n l ih =>
    intro s h
    rw [List.foldl_cons]
    rcases List.mem_cons.mp h with h | h
    · subst h
      exact mem_foldl_create_of_mem l _ (self_mem_create_if_not_exists s a)
    · exact ih _ h

/-- When every listed object is already present, the creations change nothing. -/
theorem foldl_create_eq_of_subset (l : List String) :
    ∀ s : List String, (∀ a ∈ l, a ∈ s) → l.foldl create_if_not_exists s = s := by
  induction l with
  | nil => intro s _; rfl
  | cons n l ih =>
    intro s h
    rw [List.foldl_cons]
    have hn : n ∈ s := h n (List.mem_cons_self n l)
    rw [show create_if_not_exists s n = s from by unfold create_if_not_exists; simp [hn]]
    exact ih s fun a ha => h a (List.mem_cons_of_mem n ha)

/-- On the main path (both connections and the schema succeed), the final
execution log is the concatenation of the per-table attempt logs. -/
theorem run_main_log (env : Env) (init : TargetDB)
    (hs : env.source_ok = true) (ht : env.target_ok = true) (hsc : env.schema_ok = true) :
    (run_full_replication env init).final.execution_log =
      flatLogs env tables_to_replicate := by
  unfold run_full_replication
  simp only [hs, ht, hsc, if_true]
  rw [foldl_replStep_log]
  simp

/-- On the main path, the final control table is the initial one followed by the
per-table attempt records. -/
theorem run_main_control (env : Env) (init : TargetDB)
    (hs : env.source_ok = true) (ht : env.target_ok = true) (hsc : env.schema_ok = true) :
    (run_full_replication env init).final.db.control =
      init.control ++ flatControls env tables_to_replicate := by
  unfold run_full_replication
  simp only [hs, ht, hsc, if_true]
  rw [foldl_replStep_control]
  rfl

/-- On the main path, validation is invoked exactly when every table attempt
succeeded. -/
theorem run_main_validation_ran (env : Env) (init : TargetDB)
    (hs : env.source_ok = true) (ht : env.target_ok = true) (hsc : env.schema_ok = true) :
    (run_full_replication env init).validation_ran =
      tables_to_replicate.all (tableOk env) := by
  unfold run_full_replication
  simp only [hs, ht, hsc, if_true]
  rw [foldl_replStep_fst]
  simp

/-- On the main path, the returned flag is: every table attempt succeeded and
validation passed on the final target state. -/
theorem run_main_success (env : Env) (init : TargetDB)
    (hs : env.source_ok = true) (ht : env.target_ok = true) (hsc : env.schema_ok = true) :
    (run_full_replication env init).success =
      (tables_to_replicate.all (tableOk env) &&
        validate_replication env (run_full_replication env init).final.db) := by
  unfold run_full_replication
  simp only [hs, ht, hsc, if_true]
  rw [foldl_replStep_fst]
  cases h : tables_to_replicate.all (tableOk env) <;> simp [h]

/-- On the main path, the report is generated from the final execution log and
persisted. -/
theorem run_main_report (env : Env) (init : TargetDB)
    (hs : env.source_ok = true) (ht : env.target_ok = true) (hsc : env.schema_ok = true) :
    (run_full_replication env init).report =
      some (generate_report env.now (run_full_replication env init).final.execution_log) := by
  unfold run_full_replication
  simp only [hs, ht, hsc, if_true]

/-- When extraction of table `t` fails, no attempt (of `t` itself, or of any
other table) contributes a control record naming `t`. -/
theorem filter_attemptControl_eq_nil (env : Env) (t u : String)
    (hex : env.extract_ok t = false) :
    (attemptControl env u).filter (fun c => c.table_name == t) = [] := by
  by_cases h : u = t
  · subst h
    simp [attemptControl, hex]
  · have hbeq : (u == t) = false := by simp [h]
    unfold attemptControl
    split
    · split <;> simp [List.filter, hbeq]
    · rfl

/-- When extraction of table `t` fails, a whole run's appended control records
contain none naming `t`. -/
theorem filter_flatControls_eq_nil (env : Env) (t : String)
    (hex : env.extract_ok t = false) (ts : List String) :
    (flatControls env ts).filter (fun c => c.table_name == t) = [] := by
  induction ts with
  | nil => rfl
  | cons u ts ih =>
    rw [flatControls, List.filter_append, filter_attemptControl_eq_nil env t u hex, ih]
    rfl

/-- C1: when the bulk insert step fails after the delete step, the delete is
rolled back — the committed contents of every target table are exactly what
they were before the load — and the load returns `False` having appended one
control record with status `ERROR` for that table, so such a record exists
afterwards. -/
theorem C1_insert_failure_rolls_back (st : RepState) (df : List Row) (t : String)
    (now e : Nat) :
    (load_table_data st df t false now e).1 = false ∧
    (load_table_data st df t false now e).2.db.tables = st.db.tables ∧
    (load_table_data st df t false now e).2.db.control =
      st.db.control ++ [⟨t, now, 0, 0, Status.ERROR, some insertErrMsg⟩] ∧
    ∃ c ∈ (load_table_data st df t false now e).2.db.control,
      c.table_name = t ∧ c.status = Status.ERROR := by
  refine ⟨rfl, rfl, rfl, ⟨t, now, 0, 0, Status.ERROR, some insertErrMsg⟩, ?_, rfl, rfl⟩
  simp [load_table_data]

/-- C4: a successful load of dataset `df` into table `t` leaves `t` holding
exactly the rows of `df` (no residue of the prior contents, no duplication) and
every other table untouched: the resulting table map is the pointwise update of
the prior one at `t` with `df`. -/
theorem C4_full_replace (st : RepState) (df : List Row) (t : String) (now e : Nat) :
    (load_table_data st df t true now e).1 = true ∧
    (load_table_data st df t true now e).2.db.tables =
      fun u => if u = t then df else st.db.tables u := by
  refine ⟨rfl, ?_⟩
  funext u
  by_cases h : u = t <;> simp [load_table_data, h]

/-- C10: a failed load appends a control record and a run-report log entry
recording `records_processed = 0` and `execution_time_seconds = 0`, for every
dataset `df` and every elapsed clock reading `e`. -/
theorem C10_failed_load_records_zero (st : RepState) (df : List Row) (t : String)
    (now e : Nat) :
    (load_table_data st df t false now e).2.db.control =
      st.db.control ++ [⟨t, now, 0, 0, Status.ERROR, some insertErrMsg⟩] ∧
    (load_table_data st df t false now e).2.execution_log =
      st.execution_log ++ [⟨t, 0, 0, Status.ERROR, some insertErrMsg⟩] :=
  ⟨rfl, rfl⟩

/-- C6: schema provisioning is idempotent — running `create_target_schema`
twice produces the same state as running it once (in particular against an
empty target), and running it against an already fully provisioned target
changes nothing. -/
theorem C6_schema_idempotent (db : TargetDB) :
    create_target_schema (create_target_schema db) = create_target_schema db ∧
    ((∀ o ∈ schema_objects, o ∈ db.schemaObjs) → create_target_schema db = db) := by
  constructor
  · have hsub : ∀ a ∈ schema_objects,
        a ∈ schema_objects.foldl create_if_not_exists db.schemaObjs :=
      fun a ha => mem_foldl_create_of_mem_list _ _ ha
    unfold create_target_schema
    rw [foldl_create_eq_of_subset _ _ hsub]
  · intro h
    unfold create_target_schema
    rw [foldl_create_eq_of_subset _ _ h]

/-- Witness for C6: on the concrete fully provisioned target `dbProvisioned`,
re-running changes nothing, and a double run equals a single run. -/
theorem C6_schema_idempotent_witness :
    create_target_schema dbProvisioned = dbProvisioned ∧
    create_target_schema (create_target_schema dbProvisioned) =
      create_target_schema dbProvisioned :=
  ⟨(C6_schema_idempotent dbProvisioned).2 (by decide),
   (C6_schema_idempotent dbProvisioned).1⟩

/-- C8: if the target connection cannot be opened, the run returns failure with
the target database exactly as it was — no schema provisioning, no table load,
and no control record — and no report. -/
theorem C8_target_connect_failure (env : Env) (init : TargetDB)
    (h : env.target_ok = false) :
    (run_full_replication env init).success = false ∧
    (run_full_replication env init).final.db = init ∧
    (run_full_replication env init).final.execution_log = [] ∧
    (run_full_replication env init).report = none := by
  unfold run_full_replication
  cases hs : env.source_ok <;> simp [h, close_conn]

/-- Witness for C8: the concrete environment whose target connection fails,
against an empty target. -/
theorem C8_target_connect_failure_witness :
    (run_full_replication envNoTarget emptyDB).success = false ∧
    (run_full_replication envNoTarget emptyDB).final.db = emptyDB ∧
    (run_full_replication envNoTarget emptyDB).final.execution_log = [] ∧
    (run_full_replication envNoTarget emptyDB).report = none :=
  C8_target_connect_failure envNoTarget emptyDB rfl

/-- C9: on every exit path of the run, a connection handle that opened is
closed and a handle that never opened stays `none`; `close_conn` on a
never-opened handle is a no-op. -/
theorem C9_connections_closed (env : Env) (init : TargetDB) :
    (run_full_replication env init).source_conn =
      (if env.source_ok then some ConnState.closed else none) ∧
    (run_full_replication env init).target_conn =
      (if env.source_ok && env.target_ok then some ConnState.closed else none) ∧
    close_conn none = none := by
  unfold run_full_replication
  cases hs : env.source_ok <;> cases ht : env.target_ok <;>
    cases hsc : env.schema_ok <;> simp [hs, ht, hsc, close_conn]

/-- C5: the orchestrator replicates the four tables in the fixed order
`dim_date, dim_customer_segment, dim_product, fact_sales`; every table is
attempted even when an earlier one fails (the final log is the concatenation of
every table's attempt log, in that order); validation runs exactly when all
four attempts succeeded; and the returned flag is: all attempts succeeded and
validation passed — in particular the run is marked failed when any table
failed. -/
theorem C5_orchestration (env : Env) (init : TargetDB)
    (hs : env.source_ok = true) (ht : env.target_ok = true) (hsc : env.schema_ok = true) :
    tables_to_replicate = ["dim_date", "dim_customer_segment", "dim_product", "fact_sales"] ∧
    (run_full_replication env init).final.execution_log =
      flatLogs env tables_to_replicate ∧
    (run_full_replication env init).validation_ran =
      tables_to_replicate.all (tableOk env) ∧
    (run_full_replication env init).success =
      (tables_to_replicate.all (tableOk env) &&
        validate_replication env (run_full_replication env init).final.db) :=
  ⟨rfl, run_main_log env init hs ht hsc, run_main_validation_ran env init hs ht hsc,
   run_main_success env init hs ht hsc⟩

/-- Witness for C5: a concrete run in which the `dim_product` insert fails;
all four tables are still attempted, validation does not run, and the run is
marked failed. -/
theorem C5_orchestration_witness :
    tables_to_replicate = ["dim_date", "dim_customer_segment", "dim_product", "fact_sales"] ∧
    (run_full_replication envLoadFail emptyDB).final.execution_log =
      flatLogs envLoadFail tables_to_replicate ∧
    (run_full_replication envLoadFail emptyDB).validation_ran =
      tables_to_replicate.all (tableOk envLoadFail) ∧
    (run_full_replication envLoadFail emptyDB).success =
      (tables_to_replicate.all (tableOk envLoadFail) &&
        validate_replication envLoadFail (run_full_replication envLoadFail emptyDB).final.db) :=
  C5_orchestration envLoadFail emptyDB rfl rfl rfl

/-- C7 (amended): whenever both connections and schema creation succeed, the
report is generated from the final execution log and persisted before the run
returns — even when table loads or validation failed. (When a connection or
schema creation fails, the run returns early with no report: see the
counterexample.) -/
theorem C7_report_on_main_path (env : Env) (init : TargetDB)
    (hs : env.source_ok = true) (ht : env.target_ok = true) (hsc : env.schema_ok = true) :
    (run_full_replication env init).report =
      some (generate_report env.now (run_full_replication env init).final.execution_log) :=
  run_main_report env init hs ht hsc

/-- Witness for C7: the concrete run in which the `dim_product` load fails
still persists a report. -/
theorem C7_report_on_main_path_witness :
    (run_full_replication envLoadFail emptyDB).report =
      some (generate_report envLoadFail.now
        (run_full_replication envLoadFail emptyDB).final.execution_log) :=
  C7_report_on_main_path envLoadFail emptyDB rfl rfl rfl

/-- Counterexample to C7 as stated: in the concrete run whose source connection
fails to open, the run returns with no report generated or persisted. -/
theorem C7_cex_no_report_on_connect_failure :
    (run_full_replication envNoSource emptyDB).report = none := by
  simp [run_full_replication, envNoSource, envAllOk]

/-- C3 (amended): when extraction of a source table fails, that table's load is
skipped and NO control record is written for the attempt (the control records
naming that table are exactly those present before the run); the run still
attempts every table and the overall run is marked failed. -/
theorem C3_extract_failure_unrecorded (env : Env) (init : TargetDB)
    (hs : env.source_ok = true) (ht : env.target_ok = true) (hsc : env.schema_ok = true)
    (t : String) (hmem : t ∈ tables_to_replicate) (hex : env.extract_ok t = false) :
    (run_full_replication env init).success = false ∧
    (run_full_replication env init).final.execution_log =
      flatLogs env tables_to_replicate ∧
    (run_full_replication env init).final.db.control.filter
        (fun c => c.table_name == t) =
      init.control.filter (fun c => c.table_name == t) := by
  have hall : tables_to_replicate.all (tableOk env) = false := by
    cases h : tables_to_replicate.all (tableOk env) with
    | false => rfl
    | true =>
      have := List.all_eq_true.mp h t hmem
      rw [tableOk, hex] at this
      simp at this
  refine ⟨?_, run_main_log env init hs ht hsc, ?_⟩
  · rw [run_main_success env init hs ht hsc, hall]
    rfl
  · rw [run_main_control env init hs ht hsc, List.filter_append,
      filter_flatControls_eq_nil env t hex tables_to_replicate, List.append_nil]

/-- Witness for C3 (amended): concrete run in which reading `dim_date` fails. -/
theorem C3_extract_failure_unrecorded_witness :
    (run_full_replication envExtractFail emptyDB).success = false ∧
    (run_full_replication envExtractFail emptyDB).final.execution_log =
      flatLogs envExtractFail tables_to_replicate ∧
    (run_full_replication envExtractFail emptyDB).final.db.control.filter
        (fun c => c.table_name == "dim_date") =
      emptyDB.control.filter (fun c => c.table_name == "dim_date") :=
  C3_extract_failure_unrecorded envExtractFail emptyDB rfl rfl rfl "dim_date"
    (by decide) (by decide)

/-- Counterexample to C3 as stated: in the concrete run where extraction of
`dim_date` fails, the run is marked failed and continues (three control records
are written, one per remaining table), yet NO control record — in particular
none with status `ERROR` — exists for `dim_date`, so the attempt did not
produce exactly one control record. -/
theorem C3_cex_no_error_record_for_failed_extract :
    (run_full_replication envExtractFail emptyDB).success = false ∧
    ((run_full_replication envExtractFail emptyDB).final.db.control.filter
        (fun c => c.table_name == "dim_date")).length = 0 ∧
    (run_full_replication envExtractFail emptyDB).final.db.control.length = 3 := by
  decide

/-- C2 (amended): the Replication Validator performs only the per-table
row-count comparison; it runs no referential-integrity query and its result
carries no orphan counts — two targets with the same per-table row counts get
the same verdict regardless of orphaned fact rows — and the verdict is `true`
exactly when `fact_sales` is non-empty (otherwise the metrics logging line
raises and the `except` branch returns `False`) and every table's source and
target row counts agree. -/
theorem C2_validator_counts_only (env : Env) (db db2 : TargetDB)
    (h1 : (db.tables "dim_date").length = (db2.tables "dim_date").length)
    (h2 : (db.tables "dim_customer_segment").length =
      (db2.tables "dim_customer_segment").length)
    (h3 : (db.tables "dim_product").length = (db2.tables "dim_product").length)
    (h4 : (db.tables "fact_sales").length = (db2.tables "fact_sales").length) :
    validate_replication env db = validate_replication env db2 ∧
    (validate_replication env db = true ↔
      ((db.tables "fact_sales").length ≠ 0 ∧
       (env.source_tables "dim_date").length = (db.tables "dim_date").length ∧
       (env.source_tables "dim_customer_segment").length =
         (db.tables "dim_customer_segment").length ∧
       (env.source_tables "dim_product").length = (db.tables "dim_product").length ∧
       (env.source_tables "fact_sales").length = (db.tables "fact_sales").length)) := by
  constructor
  · unfold validate_replication tables_to_replicate
    simp [h1, h2, h3, h4]
  · unfold validate_replication tables_to_replicate
    by_cases hf : (db.tables "fact_sales").length = 0 <;>
      simp [hf, List.all_cons, Bool.and_eq_true, beq_iff_eq, and_assoc]

/-- Witness for C2 (amended): concrete targets `dbOrphan` (one orphaned fact
row) and `dbNoOrphan` (intact) with identical row counts receive the same
verdict, characterized purely by row counts. -/
theorem C2_validator_counts_only_witness :
    validate_replication envAllOk dbOrphan = validate_replication envAllOk dbNoOrphan ∧
    (validate_replication envAllOk dbOrphan = true ↔
      ((dbOrphan.tables "fact_sales").length ≠ 0 ∧
       (envAllOk.source_tables "dim_date").length = (dbOrphan.tables "dim_date").length ∧
       (envAllOk.source_tables "dim_customer_segment").length =
         (dbOrphan.tables "dim_customer_segment").length ∧
       (envAllOk.source_tables "dim_product").length =
         (dbOrphan.tables "dim_product").length ∧
       (envAllOk.source_tables "fact_sales").length =
         (dbOrphan.tables "fact_sales").length)) :=
  C2_validator_counts_only envAllOk dbOrphan dbNoOrphan rfl rfl rfl rfl

/-- Counterexample to C2 as stated: the concrete target `dbOrphan` holds
exactly one `fact_sales` row whose `product_id` is absent from `dim_product`
(the spec-described orphan count is `1`, the date and segment counts `0`),
row counts agree with the source, and the Validator's entire result is the
boolean `true` — identical to its result on the orphan-free `dbNoOrphan` — so
no non-zero orphan count is surfaced in its result. -/
theorem C2_cex_orphan_not_surfaced :
    sales_without_product dbOrphan = 1 ∧
    sales_without_date dbOrphan = 0 ∧
    sales_without_segment dbOrphan = 0 ∧
    sales_without_product dbNoOrphan = 0 ∧
    validate_replication envAllOk dbOrphan = true ∧
    validate_replication envAllOk dbNoOrphan = true ∧
    validate_replication envAllOk dbOrphan = validate_replication envAllOk dbNoOrphan := by
  decide
